import Mathlib

/-!
Shallow embedding of the resilient database-access layer of the
`alx-backend-python` repository: connection management
(`1-with_db_connection.py`), transactions
(`python-decorators-0x01/2-transactional.py`), retry
(`python-decorators-0x01/3-retry_on_failure.py`), query caching
(`python-decorators-0x01/4-cache_query.py`) and concurrent dispatch
(`python-context-async-perations-0x02/3-concurrent.py`).

Python exceptions become an explicit error type; fallible calls return
`Except`; the side effects the specification talks about (open, close,
commit, rollback, operation invocation) are recorded as event traces.
-/

namespace DbAccess

/-- Error taxonomy. `connectionError`, `queryError`, `transactionError` and
`valueError` model the exceptions that appear at the storage boundary and in
the repository code; `retryExhausted` is the wrapper error named by the
design document's error taxonomy (section 7). The repository code itself
never constructs a `retryExhausted` value. -/
inductive PyErr where
  | connectionError (msg : String)
  | queryError (msg : String)
  | transactionError (msg : String)
  | valueError (msg : String)
  | retryExhausted (inner : PyErr)
deriving DecidableEq, Repr

/-- Whether an error is the `RetryExhausted` wrapper of the design
document's taxonomy. -/
def PyErr.isRetryExhausted : PyErr → Bool
  | .retryExhausted _ => true
  | _ => false

/-- A propagated Python exception together with the exception that was being
handled when it was raised (Python's implicit exception chaining, the
`context` attribute set when an exception is raised inside an `except`
block). `ctx = none` models an exception raised outside any handler, or
re-raised unchanged. -/
structure Raised where
  err : PyErr
  ctx : Option PyErr
deriving DecidableEq, Repr

/-! ## ConnectionManager: `with_db_connection` (`1-with_db_connection.py`)

```python
def wrapper(*args, **kwargs):
    conn = sqlite3.connect('users.db')
    try:
        result = func(conn, *args, **kwargs)
        return result
    finally:
        conn.close()
```

`sqlite3.connect` may raise; its outcome is the `openConn` argument. The
wrapped function's behaviour on the fresh connection is the `func`
argument. The returned trace records, in order, the observable effects. -/

/-- Events observable from the connection-managing wrapper. -/
inductive ConnEvent where
  | openOk
  | opCall
  | closeConn
deriving DecidableEq, Repr

/-- Embedding of the `with_db_connection` wrapper: attempt to open, then run
`func` on the connection, closing in a `finally` block on both the normal
and the raising path. If the open itself raises, the body is never entered
and no close happens. -/
def with_db_connection {Conn Val : Type} (openConn : Except PyErr Conn)
    (func : Conn → Except PyErr Val) : Except PyErr Val × List ConnEvent :=
  match openConn with
  | .error e => (.error e, [])
  | .ok conn =>
    match func conn with
    | .ok result => (.ok result, [.openOk, .opCall, .closeConn])
    | .error e => (.error e, [.openOk, .opCall, .closeConn])

/-! ## TransactionScope: `transactional` (`python-decorators-0x01/2-transactional.py`)

```python
def wrapper(*args, **kwargs):
    conn = args[0] if len(args) > 0 else None
    try:
        result = func(*args, **kwargs)
        if conn:
            conn.commit()
        return result
    except Exception as e:
        if conn:
            conn.rollback()
        raise e
```

A connection is modelled by the outcomes of its `commit` and `rollback`
calls. The wrapped function always runs first; a commit failure is caught
by the same `except` block; a rollback failure propagates with the caught
exception attached as its implicit context. -/

/-- A transaction-capable connection, modelled by what its two
transaction-control calls do when invoked. -/
structure TxConn where
  commitResult : Except PyErr Unit
  rollbackResult : Except PyErr Unit
deriving Repr

/-- Events observable from the transactional wrapper. -/
inductive TxEvent where
  | opRun
  | commitCall
  | rollbackCall
deriving DecidableEq, Repr

/-- Embedding of the `transactional` wrapper. `args` is the list of
positional arguments; the wrapper takes `args[0]` as the connection when
present and `None` otherwise (the `if conn:` guards make both `commit` and
`rollback` no-ops in the `None` case). `func` is the outcome of calling the
wrapped function on those arguments. -/
def transactional {Val : Type} (args : List TxConn)
    (func : Except PyErr Val) : Except Raised Val × List TxEvent :=
  match args.head? with
  | none =>
    match func with
    | .ok result => (.ok result, [.opRun])
    | .error e => (.error ⟨e, none⟩, [.opRun])
  | some conn =>
    match func with
    | .ok result =>
      match conn.commitResult with
      | .ok _ => (.ok result, [.opRun, .commitCall])
      | .error ce =>
        match conn.rollbackResult with
        | .ok _ => (.error ⟨ce, none⟩, [.opRun, .commitCall, .rollbackCall])
        | .error re => (.error ⟨re, some ce⟩, [.opRun, .commitCall, .rollbackCall])
    | .error e =>
      match conn.rollbackResult with
      | .ok _ => (.error ⟨e, none⟩, [.opRun, .rollbackCall])
      | .error re => (.error ⟨re, some e⟩, [.opRun, .rollbackCall])

/-! ## RetryPolicy: `retry_on_failure` (`python-decorators-0x01/3-retry_on_failure.py`)

```python
for attempt in range(retries + 1):
    try:
        result = func(*args, **kwargs)
        return result
    except Exception as e:
        last_exception = e
        if attempt < retries:
            time.sleep(delay)
        else:
            raise last_exception
```

The wrapped operation may behave differently on each attempt, so it is a
function of the zero-based attempt index. The loop is embedded as
structural recursion on the number of attempts still allowed after the
current one; the second component counts how many times the operation was
invoked. The `time.sleep(delay)` between attempts has no observable effect
in this model. -/

/-- One pass of the retry loop: run the operation at attempt index
`attempt`; on success return, otherwise retry while `remaining > 0`, and
re-raise the last exception once no attempts remain. -/
def retryRun {Val : Type} (op : Nat → Except PyErr Val) :
    Nat → Nat → Except PyErr Val × Nat
  | attempt, 0 =>
    match op attempt with
    | .ok v => (.ok v, 1)
    | .error e => (.error e, 1)
  | attempt, r + 1 =>
    match op attempt with
    | .ok v => (.ok v, 1)
    | .error _ =>
      ((retryRun op (attempt + 1) r).1, (retryRun op (attempt + 1) r).2 + 1)

/-- Embedding of the `retry_on_failure(retries, delay)` wrapper: up to
`retries + 1` total attempts starting at attempt index `0`. Returns the
final outcome and the number of times the operation was invoked. -/
def retry_on_failure {Val : Type} (retries : Nat)
    (op : Nat → Except PyErr Val) : Except PyErr Val × Nat :=
  retryRun op 0 retries

/-! ## QueryCache: `cache_query` (`python-decorators-0x01/4-cache_query.py`)

```python
cache_key = query.strip().lower()
if cache_key in query_cache:
    return query_cache[cache_key]
else:
    result = func(*args, **kwargs)
    query_cache[cache_key] = result
    return result
```

The process-wide dict `query_cache` is explicit state: an association list
from normalized key to stored snapshot, newest binding first. The state
also carries the number of invocations of the underlying operation, so the
"executed exactly once" parts of the contract are statements about state.
The underlying operation receives the query text and its bound parameters;
only the text enters the key. -/

/-- `str.strip()`: drop whitespace from both ends of the character
sequence. -/
def pyStrip (s : List Char) : List Char :=
  ((s.dropWhile Char.isWhitespace).reverse.dropWhile Char.isWhitespace).reverse

/-- `str.lower()`: fold every character to lower case. -/
def pyLower (s : List Char) : List Char :=
  s.map Char.toLower

/-- The normalization the code applies to form the cache key:
`query.strip().lower()`. -/
def normalizeQuery (query : String) : String :=
  String.mk (pyLower (pyStrip query.data))

/-- State of the query cache: the memo table plus a counter of underlying
executions. -/
structure CacheState (Val : Type) where
  table : List (String × Val)
  calls : Nat
deriving Repr

/-- The empty process-wide cache at process start. -/
def CacheState.empty (Val : Type) : CacheState Val :=
  ⟨[], 0⟩

/-- Embedding of one call through the `cache_query` wrapper with query text
`query` and bound parameters `params`. On a hit the stored snapshot is
returned and the operation is not invoked; on a miss the operation runs,
and its result is stored only if it returns normally. -/
def cache_query {Params Val : Type} (op : String → Params → Except PyErr Val)
    (query : String) (params : Params) (st : CacheState Val) :
    Except PyErr Val × CacheState Val :=
  let key := normalizeQuery query
  match st.table.lookup key with
  | some v => (.ok v, st)
  | none =>
    match op query params with
    | .ok v => (.ok v, ⟨(key, v) :: st.table, st.calls + 1⟩)
    | .error e => (.error e, ⟨st.table, st.calls + 1⟩)

/-! ## ConcurrentDispatcher: `fetch_concurrently` (`python-context-async-perations-0x02/3-concurrent.py`)

```python
results = await asyncio.gather(
    async_fetch_users(),
    async_fetch_older_users(),
    return_exceptions=True
)
```

`asyncio.gather(..., return_exceptions=True)` pre-allocates one result
slot per submitted task, runs the tasks to completion, writes each task's
outcome (return value or caught exception) into the slot of its submission
index as that task finishes, and never cancels a sibling when one task
fails. The nondeterministic completion order is an explicit parameter: a
list of task indices in the order the scheduler finishes them. Each task's
outcome is a pure value (`Except`), independent of its siblings. -/

/-- Record one finished task: write task `i`'s outcome into result slot
`i`, leaving every other slot as it was. -/
def writeSlot {Val : Type} (tasks : List (Except PyErr Val))
    (acc : List (Option (Except PyErr Val))) (i : Nat) :
    List (Option (Except PyErr Val)) :=
  match tasks[i]? with
  | some outcome => acc.set i (some outcome)
  | none => acc

/-- Run the submitted tasks in the scheduler's completion order `order`,
writing each finished task's outcome into the result slot of its
submission index. Slots of tasks that never complete stay `none`. -/
def runInOrder {Val : Type} (tasks : List (Except PyErr Val))
    (order : List Nat) : List (Option (Except PyErr Val)) :=
  order.foldl (writeSlot tasks) (List.replicate tasks.length none)

/-- Embedding of the dispatch: every submitted task completes exactly once,
so the completion order is some permutation of the submission indices; the
aggregated sequence is read off slot by slot. -/
def dispatchAll {Val : Type} (tasks : List (Except PyErr Val))
    (order : List Nat) : List (Option (Except PyErr Val)) :=
  runInOrder tasks order

/-! ## Theorems about the connection manager -/

/-- C6: For every operation, `with_db_connection` closes the connection it
opened exactly once, whether the operation returns normally or raises; if
opening the connection fails, the operation is never invoked and no close
is attempted; if the operation raises, that error is re-raised unchanged
after the connection is closed. -/
theorem withConnection_lifecycle {Conn Val : Type} (openConn : Except PyErr Conn)
    (func : Conn → Except PyErr Val) :
    ((with_db_connection openConn func).2.count .closeConn
        = if openConn.isOk then 1 else 0)
  ∧ ((with_db_connection openConn func).2.count .opCall
        = if openConn.isOk then 1 else 0)
  ∧ (∀ e, openConn = .error e →
      (with_db_connection openConn func).1 = .error e
        ∧ (with_db_connection openConn func).2 = [])
  ∧ (∀ conn, openConn = .ok conn →
      (with_db_connection openConn func).2
        = [.openOk, .opCall, .closeConn]
        ∧ (∀ e, func conn = .error e →
            (with_db_connection openConn func).1 = .error e)
        ∧ (∀ v, func conn = .ok v →
            (with_db_connection openConn func).1 = .ok v)) := by
  cases openConn with
  | error e =>
    simp [with_db_connection, Except.isOk, Except.toBool]
  | ok conn =>
    cases h : func conn <;>
      simp [with_db_connection, h, Except.isOk, Except.toBool, List.count_cons]

/-- Witness for `withConnection_lifecycle` at concrete inputs: a failing
open propagates the open error, and a raising operation has its error
re-raised after the traced close. -/
theorem withConnection_lifecycle_witness :
    (with_db_connection (.error (.connectionError "locked") : Except PyErr Unit)
        (fun _ => (.ok 4 : Except PyErr Nat))).1
      = .error (.connectionError "locked")
  ∧ (with_db_connection (.ok () : Except PyErr Unit)
        (fun _ => (.error (.queryError "no such table") : Except PyErr Nat))).1
      = .error (.queryError "no such table")
  ∧ (with_db_connection (.ok () : Except PyErr Unit)
        (fun _ => (.error (.queryError "no such table") : Except PyErr Nat))).2.count
      .closeConn = 1 :=
  ⟨((withConnection_lifecycle _ _).2.2.1 _ rfl).1,
   (((withConnection_lifecycle _ _).2.2.2 () rfl).2.1 _ rfl),
   by
    have h := (withConnection_lifecycle (.ok () : Except PyErr Unit)
        (fun _ => (.error (.queryError "no such table") : Except PyErr Nat))).1
    simpa using h⟩

/-! ## Theorems about the transactional wrapper -/

/-- C3: For every wrapped operation that raises, `transactional` (invoked
with a connection as first positional argument, whose rollback succeeds)
invokes rollback exactly once, never invokes commit, and re-raises the
original error with unchanged kind and message and no attached context. -/
theorem transactional_rollback_on_error {Val : Type} (conn : TxConn)
    (rest : List TxConn) (e : PyErr)
    (hrb : conn.rollbackResult = .ok ()) :
    (transactional (conn :: rest) (.error e : Except PyErr Val)).1
      = .error ⟨e, none⟩
  ∧ (transactional (conn :: rest) (.error e : Except PyErr Val)).2.count
      .rollbackCall = 1
  ∧ (transactional (conn :: rest) (.error e : Except PyErr Val)).2.count
      .commitCall = 0 := by
  simp [transactional, hrb, List.count_cons]

/-- Witness for `transactional_rollback_on_error`: a unique-violation error
from the operation is re-raised unchanged after one rollback. -/
theorem transactional_rollback_on_error_witness :
    (transactional (⟨.ok (), .ok ()⟩ :: [])
        (.error (.queryError "UNIQUE constraint failed") : Except PyErr Nat)).1
      = .error ⟨.queryError "UNIQUE constraint failed", none⟩
  ∧ (transactional (⟨.ok (), .ok ()⟩ :: [])
        (.error (.queryError "UNIQUE constraint failed") : Except PyErr Nat)).2.count
      .rollbackCall = 1 :=
  ⟨(transactional_rollback_on_error _ _ _ rfl).1,
   (transactional_rollback_on_error _ _ _ rfl).2.1⟩

/-- C4: For every wrapped operation that returns normally, `transactional`
(with a connection whose commit succeeds) invokes commit exactly once,
never invokes rollback, and returns the operation's result; moreover, on
every run whatsoever, a commit call appears in the trace only strictly
after the operation has run, and only when the operation returned without
error. -/
theorem transactional_commit_on_success {Val : Type} (conn : TxConn)
    (rest : List TxConn) (v : Val)
    (hc : conn.commitResult = .ok ()) :
    (transactional (conn :: rest) (.ok v : Except PyErr Val)).1 = .ok v
  ∧ (transactional (conn :: rest) (.ok v : Except PyErr Val)).2
      = [.opRun, .commitCall]
  ∧ (∀ (args : List TxConn) (func : Except PyErr Val),
      .commitCall ∈ (transactional args func).2 →
        func.isOk = true
          ∧ ∃ tail, (transactional args func).2 = .opRun :: .commitCall :: tail) := by
  refine ⟨?_, ?_, ?_⟩
  · simp [transactional, hc]
  · simp [transactional, hc]
  · intro args func hmem
    cases args with
    | nil =>
      cases func <;> simp [transactional] at hmem
    | cons c cs =>
      cases func with
      | ok w =>
        cases hcr : c.commitResult with
        | ok u =>
          refine ⟨rfl, [], ?_⟩
          simp [transactional, hcr]
        | error ce =>
          cases hrr : c.rollbackResult with
          | ok u =>
            refine ⟨rfl, [.rollbackCall], ?_⟩
            simp [transactional, hcr, hrr]
          | error re =>
            refine ⟨rfl, [.rollbackCall], ?_⟩
            simp [transactional, hcr, hrr]
      | error e =>
        cases hrr : c.rollbackResult with
        | ok u => simp [transactional, hrr] at hmem
        | error re => simp [transactional, hrr] at hmem

/-- Witness for `transactional_commit_on_success`: a successful operation
is committed exactly once with no rollback. -/
theorem transactional_commit_on_success_witness :
    (transactional (⟨.ok (), .ok ()⟩ :: [])
        (.ok 7 : Except PyErr Nat)).1 = .ok 7
  ∧ (transactional (⟨.ok (), .ok ()⟩ :: [])
        (.ok 7 : Except PyErr Nat)).2 = [.opRun, .commitCall] :=
  ⟨(transactional_commit_on_success _ _ _ rfl).1,
   (transactional_commit_on_success _ _ _ rfl).2.1⟩

/-- C5: When the wrapped operation raises and the subsequent rollback
itself also fails, `transactional` propagates the rollback failure, with
the original operation error attached as the context of the raised
exception (Python's implicit chaining of an exception raised inside an
`except` block). -/
theorem transactional_rollback_failure_supersedes {Val : Type} (conn : TxConn)
    (rest : List TxConn) (e re : PyErr)
    (hrb : conn.rollbackResult = .error re) :
    (transactional (conn :: rest) (.error e : Except PyErr Val)).1
      = .error ⟨re, some e⟩ := by
  simp [transactional, hrb]

/-- Witness for `transactional_rollback_failure_supersedes`: a rollback
failure supersedes the operation's query error and carries it as context. -/
theorem transactional_rollback_failure_supersedes_witness :
    (transactional (⟨.ok (), .error (.transactionError "rollback failed")⟩ :: [])
        (.error (.queryError "bad insert") : Except PyErr Nat)).1
      = .error ⟨.transactionError "rollback failed", some (.queryError "bad insert")⟩ :=
  transactional_rollback_failure_supersedes _ _ _ _ rfl

/-- C10: When `transactional` is invoked with zero positional arguments,
no connection is extracted, so neither commit nor rollback is ever called:
the wrapped operation's result is returned, or its exception re-raised
unchanged, with no transaction-control call made. -/
theorem transactional_no_args_no_control {Val : Type}
    (func : Except PyErr Val) :
    (transactional [] func).2.count .commitCall = 0
  ∧ (transactional [] func).2.count .rollbackCall = 0
  ∧ (∀ v, func = .ok v → (transactional [] func).1 = .ok v)
  ∧ (∀ e, func = .error e → (transactional [] func).1 = .error ⟨e, none⟩) := by
  cases func <;> simp [transactional, List.count_cons]

/-- Witness for `transactional_no_args_no_control`: with no positional
arguments a raising operation's error propagates with an empty trace. -/
theorem transactional_no_args_no_control_witness :
    (transactional [] (.error (.valueError "no user") : Except PyErr Nat)).1
      = .error ⟨.valueError "no user", none⟩
  ∧ (transactional [] (.ok 3 : Except PyErr Nat)).1 = .ok 3
  ∧ (transactional [] (.ok 3 : Except PyErr Nat)).2.count .commitCall = 0 :=
  ⟨(transactional_no_args_no_control _).2.2.2 _ rfl,
   (transactional_no_args_no_control _).2.2.1 _ rfl,
   (transactional_no_args_no_control _).1⟩

/-! ## Theorems about the retry policy -/

/-- The retry loop never invokes the operation more than `remaining + 1`
times. -/
theorem retryRun_invocations_le {Val : Type} (op : Nat → Except PyErr Val) :
    ∀ (remaining attempt : Nat),
      (retryRun op attempt remaining).2 ≤ remaining + 1 := by
  intro remaining
  induction remaining with
  | zero =>
    intro attempt
    cases h : op attempt <;> simp [retryRun, h]
  | succ r ih =>
    intro attempt
    cases h : op attempt with
    | ok v => simp [retryRun, h]
    | error e =>
      have := ih (attempt + 1)
      simp only [retryRun, h]
      omega

/-- If the operation fails at the first `k` attempt indices from `start`
and succeeds at index `start + k`, with `k` within the remaining budget,
the loop returns that success after exactly `k + 1` invocations. -/
theorem retryRun_ok_after_failures {Val : Type} (op : Nat → Except PyErr Val) :
    ∀ (k start remaining : Nat) (v : Val),
      k ≤ remaining →
      (∀ i, i < k → ∃ e, op (start + i) = .error e) →
      op (start + k) = .ok v →
      retryRun op start remaining = (.ok v, k + 1) := by
  intro k
  induction k with
  | zero =>
    intro start remaining v _ _ hsucc
    have h0 : op start = .ok v := by simpa using hsucc
    cases remaining <;> simp [retryRun, h0]
  | succ k ih =>
    intro start remaining v hk hfail hsucc
    obtain ⟨e, he⟩ := hfail 0 (Nat.succ_pos k)
    have he' : op start = .error e := by simpa using he
    obtain ⟨r, hr⟩ : ∃ r, remaining = r + 1 := by
      cases remaining with
      | zero => omega
      | succ r => exact ⟨r, rfl⟩
    subst hr
    have hrest : retryRun op (start + 1) r = (.ok v, k + 1) := by
      refine ih (start + 1) r v (by omega) ?_ ?_
      · intro i hi
        obtain ⟨e', he''⟩ := hfail (i + 1) (by omega)
        exact ⟨e', by simpa [Nat.add_assoc, Nat.add_comm 1 i] using he''⟩
      · have : start + (k + 1) = start + 1 + k := by omega
        simpa [this] using hsucc
    simp [retryRun, he', hrest]

/-- C2: `retry_on_failure` invokes the operation at most `retries + 1`
times for every operation; and if the operation fails on its first `k`
attempts (`k ≤ retries`) and succeeds on attempt `k + 1`, the wrapper
returns that success value after exactly `k + 1` invocations (so no
exhaustion error is raised). -/
theorem withRetry_success_after_k_failures {Val : Type} (retries k : Nat)
    (op : Nat → Except PyErr Val) (v : Val)
    (hk : k ≤ retries)
    (hfail : ∀ i, i < k → ∃ e, op i = .error e)
    (hsucc : op k = .ok v) :
    retry_on_failure retries op = (.ok v, k + 1)
  ∧ (∀ (op' : Nat → Except PyErr Val),
      (retry_on_failure retries op').2 ≤ retries + 1) := by
  constructor
  · have := retryRun_ok_after_failures op k 0 retries v hk
      (by simpa using hfail) (by simpa using hsucc)
    simpa [retry_on_failure] using this
  · intro op'
    exact retryRun_invocations_le op' retries 0

/-- Witness for `withRetry_success_after_k_failures`: an operation that
fails twice then succeeds, under a budget of three retries, returns the
success after exactly three invocations. -/
theorem withRetry_success_after_k_failures_witness :
    retry_on_failure 3
        (fun i => if i < 2 then .error (.connectionError "locked") else .ok 9)
      = (.ok 9, 3) :=
  (withRetry_success_after_k_failures 3 2
      (fun i => if i < 2 then .error (.connectionError "locked") else .ok 9) 9
      (by omega)
      (fun i hi => ⟨.connectionError "locked", by interval_cases i <;> rfl⟩)
      rfl).1

/-- An operation that always fails at the attempted indices is an input at
which the spec's `RetryExhausted` wrapping can be checked. -/
def alwaysLocked : Nat → Except PyErr Unit :=
  fun _ => .error (.connectionError "locked")

/-- The error a retry run raised, when it raised one. -/
def raisedError {Val : Type} (outcome : Except PyErr Val × Nat) : Option PyErr :=
  match outcome.1 with
  | .error e => some e
  | .ok _ => none

/-- Counterexample to C1 as stated: with `retries = 3` and an operation
that always raises `ConnectionError("locked")`, the wrapper makes 4
attempts and then re-raises the underlying `ConnectionError` itself — it
does not raise a `RetryExhausted` wrapper carrying it, because the code
executes `raise last_exception` and never constructs any wrapper error. -/
theorem withRetry_no_retryExhausted_counterexample :
    retry_on_failure 3 alwaysLocked = (.error (.connectionError "locked"), 4)
  ∧ (raisedError (retry_on_failure 3 alwaysLocked)).map PyErr.isRetryExhausted
      = some false :=
  ⟨rfl, rfl⟩

/-- If the operation fails at every attempt index from `start` through
`start + remaining`, the loop re-raises the error of the final attempt
after `remaining + 1` invocations. -/
theorem retryRun_all_fail {Val : Type} (op : Nat → Except PyErr Val)
    (errOf : Nat → PyErr) :
    ∀ (remaining start : Nat),
      (∀ i, i ≤ remaining → op (start + i) = .error (errOf (start + i))) →
      retryRun op start remaining
        = (.error (errOf (start + remaining)), remaining + 1) := by
  intro remaining
  induction remaining with
  | zero =>
    intro start hfail
    have h0 : op start = .error (errOf start) := by simpa using hfail 0 (by omega)
    simp [retryRun, h0]
  | succ r ih =>
    intro start hfail
    have h0 : op start = .error (errOf start) := by simpa using hfail 0 (by omega)
    have hrest : retryRun op (start + 1) r
        = (.error (errOf (start + 1 + r)), r + 1) := by
      refine ih (start + 1) ?_
      intro i hi
      have := hfail (i + 1) (by omega)
      simpa [Nat.add_assoc, Nat.add_comm 1 i] using this
    have harr : start + 1 + r = start + (r + 1) := by omega
    simp [retryRun, h0, hrest, harr]

/-- C1 amended: for every operation that fails on all `retries + 1`
attempts, `retry_on_failure` makes exactly `retries + 1` invocations and
then raises the error of the final failed attempt itself, unchanged and
unwrapped — so no earlier intermediate failure escapes to the caller, but
no `RetryExhausted` wrapper is raised either. -/
theorem withRetry_raises_last_error {Val : Type} (retries : Nat)
    (op : Nat → Except PyErr Val) (errOf : Nat → PyErr)
    (hfail : ∀ i, i ≤ retries → op i = .error (errOf i)) :
    retry_on_failure retries op = (.error (errOf retries), retries + 1) := by
  have := retryRun_all_fail op errOf retries 0 (by simpa using hfail)
  simpa [retry_on_failure] using this

/-- Witness for `withRetry_raises_last_error`: distinct failures on each
of the 4 attempts; the error of attempt index 3 (the last) is the one
raised, after exactly 4 invocations. -/
theorem withRetry_raises_last_error_witness :
    retry_on_failure 3
        (fun i => (.error (.connectionError (toString i)) : Except PyErr Unit))
      = (.error (.connectionError "3"), 4) :=
  withRetry_raises_last_error 3
    (fun i => (.error (.connectionError (toString i)) : Except PyErr Unit))
    (fun i => .connectionError (toString i))
    (fun _ _ => rfl)

/-! ## Theorems about the query cache -/

/-- Shared shape of the two-call cache arguments: a first call that misses
and succeeds, followed by any call whose text normalizes to the same key,
which is served from the memo table with the state untouched. -/
theorem cache_query_miss_then_hit {Params Val : Type}
    (op : String → Params → Except PyErr Val)
    (q1 q2 : String) (p1 p2 : Params) (st : CacheState Val) (v : Val)
    (hmiss : st.table.lookup (normalizeQuery q1) = none)
    (hnorm : normalizeQuery q1 = normalizeQuery q2)
    (hop : op q1 p1 = .ok v) :
    (cache_query op q1 p1 st).1 = .ok v
  ∧ (cache_query op q1 p1 st).2.calls = st.calls + 1
  ∧ (cache_query op q2 p2 (cache_query op q1 p1 st).2).1 = .ok v
  ∧ (cache_query op q2 p2 (cache_query op q1 p1 st).2).2
      = (cache_query op q1 p1 st).2 := by
  have h1 : cache_query op q1 p1 st
      = (.ok v, ⟨(normalizeQuery q1, v) :: st.table, st.calls + 1⟩) := by
    simp [cache_query, hmiss, hop]
  have hlook : ((normalizeQuery q1, v) :: st.table).lookup (normalizeQuery q2)
      = some v := by
    simp [List.lookup, hnorm]
  refine ⟨by simp [h1], by simp [h1], ?_, ?_⟩ <;>
    · rw [h1]
      simp [cache_query, hlook]

/-- C7: two `cache_query` calls whose query texts normalize to the same
key, starting from a state in which that key is absent: the underlying
operation runs exactly once — on the first call — and the second call
returns the identical cached value without running the operation (the
whole state, memo table included, is untouched by the second call). -/
theorem cachedRead_single_execution {Params Val : Type}
    (op : String → Params → Except PyErr Val)
    (q1 q2 : String) (p1 p2 : Params) (st : CacheState Val) (v : Val)
    (hmiss : st.table.lookup (normalizeQuery q1) = none)
    (hnorm : normalizeQuery q1 = normalizeQuery q2)
    (hop : op q1 p1 = .ok v) :
    (cache_query op q1 p1 st).1 = .ok v
  ∧ (cache_query op q1 p1 st).2.calls = st.calls + 1
  ∧ (cache_query op q2 p2 (cache_query op q1 p1 st).2).1 = .ok v
  ∧ (cache_query op q2 p2 (cache_query op q1 p1 st).2).2
      = (cache_query op q1 p1 st).2 :=
  cache_query_miss_then_hit op q1 q2 p1 p2 st v hmiss hnorm hop

/-- The read operation behind the demonstration scenario: returns the
4-row snapshot whatever the parameters. -/
def fourRows : String → Nat → Except PyErr Nat :=
  fun _ _ => .ok 4

/-- Witness for `cachedRead_single_execution`: the two spec scenario texts
(different casing and surrounding whitespace) share one key; the second
call is served from the cache after a single execution. -/
theorem cachedRead_single_execution_witness :
    (cache_query fourRows "  select * from users " 1
        (cache_query fourRows "SELECT * FROM users" 0 (CacheState.empty Nat)).2).1
      = .ok 4
  ∧ (cache_query fourRows "  select * from users " 1
        (cache_query fourRows "SELECT * FROM users" 0 (CacheState.empty Nat)).2).2.calls
      = 1 := by
  have h := cachedRead_single_execution fourRows
    "SELECT * FROM users" "  select * from users " 0 1
    (CacheState.empty Nat) 4 rfl (by decide) rfl
  exact ⟨h.2.2.1, by rw [h.2.2.2]; exact h.2.1⟩

/-- C8: the cache key is derived from the query text alone, ignoring bound
parameters. Two calls with identical query text but different parameter
sets: the second call returns the first call's cached result — even if the
operation would have produced something else for the second parameters —
and the operation is not re-executed. -/
theorem cachedRead_ignores_params {Params Val : Type}
    (op : String → Params → Except PyErr Val)
    (q : String) (p1 p2 : Params) (st : CacheState Val) (v : Val)
    (hmiss : st.table.lookup (normalizeQuery q) = none)
    (_hne : p1 ≠ p2)
    (hop1 : op q p1 = .ok v) :
    (cache_query op q p1 st).1 = .ok v
  ∧ (cache_query op q p2 (cache_query op q p1 st).2).1 = .ok v
  ∧ (cache_query op q p2 (cache_query op q p1 st).2).2.calls
      = st.calls + 1 := by
  have h := cache_query_miss_then_hit op q q p1 p2 st v hmiss rfl hop1
  exact ⟨h.1, h.2.2.1, by rw [h.2.2.2]; exact h.2.1⟩

/-- A parameter-sensitive read operation: its honest result is its bound
parameter, so a stale cache hit is visible as the wrong value. -/
def echoParam : String → Nat → Except PyErr Nat :=
  fun _ p => .ok p

/-- Witness for `cachedRead_ignores_params`: same text, parameters 10 then
20; the second call is answered with the first call's value 10 (not 20)
and the execution counter stays at 1. -/
theorem cachedRead_ignores_params_witness :
    (cache_query echoParam "SELECT * FROM users WHERE age > ?" 20
        (cache_query echoParam "SELECT * FROM users WHERE age > ?" 10
          (CacheState.empty Nat)).2).1
      = .ok 10
  ∧ (cache_query echoParam "SELECT * FROM users WHERE age > ?" 20
        (cache_query echoParam "SELECT * FROM users WHERE age > ?" 10
          (CacheState.empty Nat)).2).2.calls
      = 1 := by
  have h := cachedRead_ignores_params echoParam
    "SELECT * FROM users WHERE age > ?" 10 20
    (CacheState.empty Nat) 10 rfl (by decide) rfl
  exact ⟨h.2.1, h.2.2⟩

/-! ## Theorems about the concurrent dispatcher -/

/-- Recording finished tasks never changes the number of result slots. -/
theorem foldl_writeSlot_length {Val : Type} (tasks : List (Except PyErr Val)) :
    ∀ (order : List Nat) (acc : List (Option (Except PyErr Val))),
      (order.foldl (writeSlot tasks) acc).length = acc.length := by
  intro order
  induction order with
  | nil => intro acc; rfl
  | cons j rest ih =>
    intro acc
    rw [List.foldl_cons, ih]
    cases h : tasks[j]? <;> simp [writeSlot, h]

/-- After processing the completions in `order`, a valid slot `i` holds
task `i`'s outcome if task `i` completed somewhere in `order`, and its
previous contents otherwise — no completion ever writes a sibling's
slot. -/
theorem foldl_writeSlot_slot {Val : Type} (tasks : List (Except PyErr Val)) :
    ∀ (order : List Nat) (acc : List (Option (Except PyErr Val))),
      acc.length = tasks.length →
      ∀ i, i < tasks.length →
        (order.foldl (writeSlot tasks) acc)[i]?
          = if i ∈ order then some tasks[i]? else acc[i]? := by
  intro order
  induction order with
  | nil =>
    intro acc _ i _
    simp
  | cons j rest ih =>
    intro acc hlen i hi
    have hlen' : (writeSlot tasks acc j).length = tasks.length := by
      cases h : tasks[j]? <;> simp [writeSlot, h, hlen]
    rw [List.foldl_cons, ih (writeSlot tasks acc j) hlen' i hi]
    by_cases hmem : i ∈ rest
    · simp [hmem]
    · by_cases hij : i = j
      · subst hij
        have ho : tasks[i]? = some tasks[i] := List.getElem?_eq_getElem hi
        have hset : (writeSlot tasks acc i)[i]? = some (some tasks[i]) := by
          have hilen : i < acc.length := hlen ▸ hi
          simp only [writeSlot, ho]
          exact List.getElem?_set_eq_of_lt _ hilen
        simp [hmem, hset, ho]
      · have hother : (writeSlot tasks acc j)[i]? = acc[i]? := by
          cases h : tasks[j]? with
          | none => simp [writeSlot, h]
          | some o => simp [writeSlot, h, List.getElem?_set_ne (Ne.symm hij)]
        simp [hmem, hij, hother]

/-- C9: for every task sequence and every completion order in which each
submitted task finishes (in whatever order the scheduler chooses), the
dispatch result has exactly one slot per task, in submission order; slot
`i` holds task `i`'s own outcome — its success value or its captured
error, as data, never raised — regardless of where task `i` finished in
the completion order and regardless of any sibling's failure. -/
theorem dispatchAll_submission_order {Val : Type}
    (tasks : List (Except PyErr Val)) (order : List Nat)
    (hall : ∀ i, i < tasks.length → i ∈ order) :
    (dispatchAll tasks order).length = tasks.length
  ∧ (∀ i, i < tasks.length →
      (dispatchAll tasks order)[i]? = some tasks[i]?) := by
  constructor
  · simpa [dispatchAll, runInOrder] using
      foldl_writeSlot_length tasks order (List.replicate tasks.length none)
  · intro i hi
    have h := foldl_writeSlot_slot tasks order
      (List.replicate tasks.length none) (by simp) i hi
    simpa [dispatchAll, runInOrder, hall i hi] using h

/-- The spec's fan-out scenario: a succeeding task, a task failing on a
bad table, and another succeeding task. -/
def demoTasks : List (Except PyErr Nat) :=
  [.ok 1, .error (.queryError "no such table"), .ok 2]

/-- Witness for `dispatchAll_submission_order`: completion order 2, 0, 1
differs from submission order; the aggregate still has 3 slots with the
failing task's error as data in slot 1 and the successes in slots 0 and
2. -/
theorem dispatchAll_submission_order_witness :
    (dispatchAll demoTasks [2, 0, 1]).length = 3
  ∧ (dispatchAll demoTasks [2, 0, 1])[0]? = some (some (.ok 1))
  ∧ (dispatchAll demoTasks [2, 0, 1])[1]?
      = some (some (.error (.queryError "no such table")))
  ∧ (dispatchAll demoTasks [2, 0, 1])[2]? = some (some (.ok 2)) := by
  have h := dispatchAll_submission_order demoTasks [2, 0, 1] (by decide)
  exact ⟨h.1, h.2 0 (by decide), h.2 1 (by decide), h.2 2 (by decide)⟩

end DbAccess
